import Mathlib

/-!
Shallow embedding of the coinflip betting engine
(`src/betting_engine.py`) together with the bet-capping step of the
strategy loop (`src/main.py`).  Numeric values are modelled as
rationals (the Python floats involved in the claims are exactly
representable); Python's `round` (round-half-to-even) is modelled by
`pyRound`.  Message text is modelled as lists of characters; the two
regular expressions of the source are modelled by explicit
maximal-munch matchers, and the external Discord reads are modelled by
passing the message batches (or `none` for a raised exception) as
arguments.
-/

namespace OwoBot

/-! ### Python `round` on rationals -/

/-- Executable floor of a rational (`num / den` with Euclidean integer
division; the denominator is positive). -/
def ratFloor (q : ℚ) : ℤ := q.num / q.den

theorem ratFloor_eq (q : ℚ) : ratFloor q = ⌊q⌋ := Rat.floor_def.symm

/-- Python 3 `round` to an integer: round half to even (banker's
rounding). -/
def pyRound (q : ℚ) : ℤ :=
  let f : ℤ := ratFloor q
  let r : ℚ := q - f
  if r < 1 / 2 then f
  else if 1 / 2 < r then f + 1
  else if f % 2 = 0 then f else f + 1

/-! ### Text primitives

Python string operations used by the engine: `str.lower`, the `in`
substring test, and the two regexes
`(\d+(?:,\d+)*)\s*cowoncy` (with `re.IGNORECASE`) and
`you won (?:\*\*)?(\d+(?:,\d+)*)(?:\*\*)?!!`.  Both regexes are
backtracking-free on their character classes, so a maximal-munch
matcher tried at each start position reproduces `re.search`. -/

/-- ASCII lower-casing of one character (`str.lower` on the engine's
ASCII message templates). -/
def asciiLower (c : Char) : Char :=
  if 65 ≤ c.toNat ∧ c.toNat ≤ 90 then Char.ofNat (c.toNat + 32) else c

/-- `str.lower` over a character list. -/
def lowerL (l : List Char) : List Char := l.map asciiLower

/-- Does `pat` occur at the head of `l`? -/
def startsWithL : List Char → List Char → Bool
  | _, [] => true
  | [], _ :: _ => false
  | c :: cs, d :: ds => c = d && startsWithL cs ds

/-- Python's `pat in l` substring test. -/
def containsL : List Char → List Char → Bool
  | [], pat => startsWithL [] pat
  | c :: rest, pat => startsWithL (c :: rest) pat || containsL rest pat

/-- Regex class `\d`. -/
def isDigitC (c : Char) : Bool := 48 ≤ c.toNat && c.toNat ≤ 57

/-- Regex class `\s` (ASCII part: space, tab, newline, return,
vertical tab, form feed). -/
def isSpaceC (c : Char) : Bool :=
  c = ' ' || c = '\t' || c = '\n' || c = '\r' || c.toNat = 11 || c.toNat = 12

/-- Consume `\d*(?:,\d+)*` greedily: digits, plus commas each followed
by at least one digit.  Returns the consumed group and the remainder. -/
def numGroupAux : List Char → List Char × List Char
  | [] => ([], [])
  | c :: rest =>
    if isDigitC c then
      let (g, r) := numGroupAux rest
      (c :: g, r)
    else if c = ',' then
      match rest with
      | d :: _ =>
        if isDigitC d then
          let (g, r) := numGroupAux rest
          (c :: g, r)
        else ([], c :: rest)
      | [] => ([], c :: rest)
    else ([], c :: rest)

/-- Match `(\d+(?:,\d+)*)` at the current position: the first character
must be a digit. -/
def matchNumGroup (l : List Char) : Option (List Char × List Char) :=
  match l with
  | c :: _ => if isDigitC c then some (numGroupAux l) else none
  | [] => none

/-- The currency keyword searched for by `check_cash`. -/
def cowoncyPat : List Char := "cowoncy".data

/-- Match `(\d+(?:,\d+)*)\s*cowoncy` at the current position of an
already lower-cased message, returning the captured number group. -/
def matchCashAt (l : List Char) : Option (List Char) :=
  match matchNumGroup l with
  | none => none
  | some (g, rest) =>
    if startsWithL (rest.dropWhile isSpaceC) cowoncyPat then some g else none

/-- `re.search` for the cash pattern: leftmost match wins. -/
def searchCash : List Char → Option (List Char)
  | [] => none
  | c :: rest =>
    match matchCashAt (c :: rest) with
    | some g => some g
    | none => searchCash rest

/-- Numeric value of a digit character. -/
def digitVal (c : Char) : ℕ := c.toNat - 48

/-- Parse a run of decimal digits (`float(cash_str)` on an integer
string). -/
def parseDigits (l : List Char) : ℕ := l.foldl (fun a c => a * 10 + digitVal c) 0

/-- `.replace(',', '')` on the captured group. -/
def stripCommas (l : List Char) : List Char := l.filter (fun c => c != ',')

/-- The message-scanning loop of `check_cash` (lines 50–81): take the
first message that contains "cowoncy" (case-insensitively) *and* whose
text matches the cash regex; messages that contain the keyword but do
not match the regex are skipped. -/
def extractBalance : List (List Char) → Option ℕ
  | [] => none
  | m :: rest =>
    let ml := lowerL m
    if containsL ml cowoncyPat then
      match searchCash ml with
      | some g => some (parseDigits (stripCommas g))
      | none => extractBalance rest
    else extractBalance rest

/-! ### Configuration and session state -/

/-- `config["betting"]` (see `config_manager.get_default_config`). -/
structure BettingConfig where
  initial_bet_percentage : ℚ
  loss_multiplier : ℚ
  min_bet_amount : ℚ
  max_consecutive_losses : ℕ
deriving DecidableEq

/-- `config["risk_management"]`. -/
structure RiskConfig where
  enable_stop_loss : Bool
  stop_loss_percentage : ℚ
  enable_profit_target : Bool
  profit_target_percentage : ℚ
  enable_max_bet_limit : Bool
  max_bet_percentage : ℚ
  enable_session_time_limit : Bool
  session_time_limit_hours : ℚ
deriving DecidableEq

/-- The configuration slice consumed by `BettingEngine`. -/
structure Config where
  betting : BettingConfig
  risk_management : RiskConfig
deriving DecidableEq

/-- The mutable session state of `BettingEngine` (the fields of
`__init__`, minus the logging/client plumbing; the session start time
is modelled by passing elapsed hours to `should_stop_betting`). -/
structure EngineState where
  current_cash : ℚ
  starting_balance : ℚ
  current_bet : ℚ
  consecutive_losses : ℕ
  total_bets : ℕ
  total_wins : ℕ
  total_losses : ℕ
  total_profit : ℚ
  stop_loss_triggered : Bool
  profit_target_reached : Bool
  max_losses_reached : Bool
deriving DecidableEq

/-- `BettingEngine.__init__`: all numbers zero, all flags false. -/
def initState : EngineState where
  current_cash := 0
  starting_balance := 0
  current_bet := 0
  consecutive_losses := 0
  total_bets := 0
  total_wins := 0
  total_losses := 0
  total_profit := 0
  stop_loss_triggered := false
  profit_target_reached := false
  max_losses_reached := false

/-! ### Engine operations -/

/-- `BettingEngine._check_risk_conditions` (lines 89–108): each check
can only set its flag to `True`; no check ever clears a flag. -/
def check_risk_conditions (cfg : Config) (s : EngineState) : EngineState :=
  let s1 :=
    if cfg.risk_management.enable_stop_loss ∧ 0 < s.starting_balance ∧
        cfg.risk_management.stop_loss_percentage ≤
          (s.starting_balance - s.current_cash) / s.starting_balance * 100 then
      { s with stop_loss_triggered := true }
    else s
  let s2 :=
    if cfg.risk_management.enable_profit_target ∧ 0 < s1.starting_balance ∧
        cfg.risk_management.profit_target_percentage ≤
          s1.total_profit / s1.starting_balance * 100 then
      { s1 with profit_target_reached := true }
    else s1
  if cfg.betting.max_consecutive_losses ≤ s2.consecutive_losses then
    { s2 with max_losses_reached := true }
  else s2

/-- `BettingEngine.check_cash` (lines 35–87).  The two external reads
are modelled by the `msgs` argument: `none` stands for an exception
raised while fetching messages; `some ms` is the fetched batch,
most-recent-first.  Returns the Python return value together with the
updated state. -/
def check_cash (cfg : Config) (s : EngineState) (msgs : Option (List (List Char))) :
    ℚ × EngineState :=
  match msgs with
  | none => (0, s)
  | some ms =>
    match extractBalance ms with
    | none => (0, s)
    | some v =>
      let s1 := { s with current_cash := (v : ℚ) }
      let s2 :=
        if s1.starting_balance = (0 : ℚ) then { s1 with starting_balance := s1.current_cash }
        else s1
      let s3 := { s2 with total_profit := s2.current_cash - s2.starting_balance }
      (s3.current_cash, check_risk_conditions cfg s3)

/-- `BettingEngine.calculate_bet_amount` (lines 110–133), line for
line: pick the base amount from the streak state, apply the minimum
bet, apply the maximum bet limit when enabled, and round to the
nearest whole number with Python `round`. -/
def calculate_bet_amount (cfg : Config) (s : EngineState) : ℤ :=
  let bet_amount : ℚ :=
    if s.consecutive_losses = 0 then
      s.current_cash * (cfg.betting.initial_bet_percentage / 100)
    else
      s.current_bet * cfg.betting.loss_multiplier
  let bet_amount := max bet_amount cfg.betting.min_bet_amount
  let bet_amount :=
    if cfg.risk_management.enable_max_bet_limit then
      min bet_amount (s.current_cash * (cfg.risk_management.max_bet_percentage / 100))
    else bet_amount
  pyRound bet_amount

/-! ### Coin-flip outcome interpretation (`place_coinflip_bet`) -/

/-- The classified outcome of one coin flip.  `win` carries the payout
amount the code reports (the number captured next to the win marker,
or twice the bet when no number could be captured). -/
inductive FlipResult
  | win (amount : ℤ)
  | loss
  | unknown
deriving DecidableEq

/-- "spent" marker (line 166). -/
def spentPat : List Char := "spent".data

/-- "coin spins" marker (line 166). -/
def spinsPat : List Char := "coin spins".data

/-- "you won" marker (lines 176, 202). -/
def wonMark : List Char := "you won".data

/-- "lost it all" marker (lines 189, 208). -/
def lostMark : List Char := "lost it all".data

/-- Literal head of the win-amount regex. -/
def wonAmountHead : List Char := "you won ".data

/-- Optional `(?:\*\*)?` before the captured number. -/
def dropStars (l : List Char) : List Char :=
  match l with
  | '*' :: '*' :: rest => rest
  | _ => l

/-- `(?:\*\*)?!!` after the captured number. -/
def matchBangs (l : List Char) : Bool :=
  startsWithL l ('*' :: '*' :: '!' :: '!' :: []) || startsWithL l ('!' :: '!' :: [])

/-- Match `you won (?:\*\*)?(\d+(?:,\d+)*)(?:\*\*)?!!` at the current
position of an already lower-cased message (line 178). -/
def matchWonAt (l : List Char) : Option (List Char) :=
  if startsWithL l wonAmountHead then
    match matchNumGroup (dropStars (l.drop wonAmountHead.length)) with
    | none => none
    | some (g, rest) => if matchBangs rest then some g else none
  else none

/-- `re.search` for the win-amount pattern. -/
def searchWon : List Char → Option (List Char)
  | [] => none
  | c :: rest =>
    match matchWonAt (c :: rest) with
    | some g => some g
    | none => searchWon rest

/-- `str(n)` for a natural number. -/
def natToChars (n : ℕ) : List Char := Nat.toDigits 10 n

/-- `str(z)` for a Python int. -/
def intToChars : ℤ → List Char
  | .ofNat n => natToChars n
  | .negSucc n => '-' :: natToChars (n + 1)

/-- The inner loop over the refreshed batch (lines 172–193): the first
message containing "you won" yields a win whose reported amount is the
captured number (commas stripped) or `2 × amount` when the capture
fails; otherwise the first message containing "lost it all" yields a
loss. -/
def scanUpdated (amount : ℤ) : List (List Char) → Option FlipResult
  | [] => none
  | m :: rest =>
    let ml := lowerL m
    if containsL ml wonMark then
      some (.win (match searchWon ml with
        | some g => (parseDigits (stripCommas g) : ℤ)
        | none => amount * 2))
    else if containsL ml lostMark then some .loss
    else scanUpdated amount rest

/-- The outer loop over the primary batch (lines 162–193): for each
message containing both "spent" and "coin spins", scan the refreshed
batch; keep scanning the remaining primary messages when the refreshed
batch is inconclusive. -/
def scanPrimary (amount : ℤ) (updated : List (List Char)) :
    List (List Char) → Option FlipResult
  | [] => none
  | m :: rest =>
    let ml := lowerL m
    if containsL ml spentPat && containsL ml spinsPat then
      match scanUpdated amount updated with
      | some r => some r
      | none => scanPrimary amount updated rest
    else scanPrimary amount updated rest

/-- The fallback loop over the late batch (lines 199–212): a win or
loss marker counts only when `str(amount)` occurs in the *original*
(non-lowered) message text; a fallback win reports `2 × amount`. -/
def scanFinal (amount : ℤ) : List (List Char) → Option FlipResult
  | [] => none
  | m :: rest =>
    let ml := lowerL m
    if containsL ml wonMark && containsL m (intToChars amount) then
      some (.win (amount * 2))
    else if containsL ml lostMark && containsL m (intToChars amount) then
      some .loss
    else scanFinal amount rest

/-- The full outcome-classification policy of `place_coinflip_bet`
(lines 154–215): primary scan, then fallback scan, else `unknown`. -/
def extract_flip_outcome (amount : ℤ) (primary updated final : List (List Char)) :
    FlipResult :=
  match scanPrimary amount updated primary with
  | some r => r
  | none =>
    match scanFinal amount final with
    | some r => r
    | none => .unknown

/-- The counter updates of `place_coinflip_bet` once the outcome is
known: win → `total_wins += 1` and the loss streak resets to 0 (the
code only assigns when it is positive, which is the same); loss →
`total_losses += 1`, `consecutive_losses += 1`; unknown → no counter
changes. -/
def apply_outcome (s : EngineState) : FlipResult → EngineState
  | .win _ => { s with total_wins := s.total_wins + 1, consecutive_losses := 0 }
  | .loss => { s with total_losses := s.total_losses + 1,
                      consecutive_losses := s.consecutive_losses + 1 }
  | .unknown => s

/-- `BettingEngine.place_coinflip_bet` (lines 135–219).  The three
external reads are modelled by `batches`; `none` stands for an
exception raised inside the `try` block before any message was
classified (the code then returns `None`).  `current_bet` and
`total_bets` are updated unconditionally before the outcome is read
(lines 145–147). -/
def place_coinflip_bet (s : EngineState) (amount : ℚ)
    (batches : Option (List (List Char) × List (List Char) × List (List Char))) :
    FlipResult × EngineState :=
  let a : ℤ := pyRound amount
  let s1 := { s with current_bet := (a : ℚ), total_bets := s.total_bets + 1 }
  let r : FlipResult :=
    match batches with
    | none => .unknown
    | some (primary, updated, final) => extract_flip_outcome a primary updated final
  (r, apply_outcome s1 r)

/-- `BettingEngine.should_stop_betting` (lines 221–246).  The elapsed
session time is passed in as hours. -/
def should_stop_betting (cfg : Config) (s : EngineState) (session_hours : ℚ) :
    Bool × String :=
  if s.stop_loss_triggered then (true, "Stop loss triggered")
  else if s.profit_target_reached then (true, "Profit target reached")
  else if s.max_losses_reached then (true, "Maximum consecutive losses reached")
  else if s.current_cash ≤ 0 then (true, "Insufficient funds")
  else if cfg.risk_management.enable_session_time_limit ∧
      cfg.risk_management.session_time_limit_hours ≤ session_hours then
    (true, "Session time limit reached")
  else (false, "")

/-- The bet-capping step of the strategy loop
(`main.run_betting_strategy`, lines 190–195): the computed bet is cut
down to the available balance when it exceeds it. -/
def orchestrator_capped_bet (cfg : Config) (s : EngineState) : ℚ :=
  let bet_amount : ℚ := (calculate_bet_amount cfg s : ℤ)
  if s.current_cash < bet_amount then s.current_cash else bet_amount

/-! ### Session histories -/

/-- One externally-driven engine operation: a balance check with the
batch it read (or `none` for a fetch failure), or a placed bet with
its amount and the result batches. -/
inductive Event
  | cash (msgs : Option (List (List Char)))
  | bet (amount : ℚ)
      (batches : Option (List (List Char) × List (List Char) × List (List Char)))

/-- Run one event against the engine state. -/
def stepEvent (cfg : Config) (s : EngineState) : Event → EngineState
  | .cash msgs => (check_cash cfg s msgs).2
  | .bet amount batches => (place_coinflip_bet s amount batches).2

/-- Run a session history. -/
def runEvents (cfg : Config) (s : EngineState) : List Event → EngineState
  | [] => s
  | e :: es => runEvents cfg (stepEvent cfg s e) es

/-- The number of bets in a history whose outcome was undeterminable
(result `unknown`, counting fetch failures). -/
def countUnknown (cfg : Config) (s : EngineState) : List Event → ℕ
  | [] => 0
  | .cash msgs :: es => countUnknown cfg (stepEvent cfg s (.cash msgs)) es
  | .bet amount batches :: es =>
    (if (place_coinflip_bet s amount batches).1 = .unknown then 1 else 0) +
      countUnknown cfg (stepEvent cfg s (.bet amount batches)) es

/-! ### Spec-side definitions

These follow the wording of the specification (for the refinement
claims); everything above follows the source. -/

/-- The clamp described by the spec: the bet is clamped to the
interval `[minBetAmount, currentBalance × maxBetPercentage / 100]`,
the upper end applying only when the max-bet limit is enabled. -/
def specClamp (cfg : Config) (s : EngineState) (x : ℚ) : ℚ :=
  if cfg.risk_management.enable_max_bet_limit then
    min (max x cfg.betting.min_bet_amount)
      (s.current_cash * cfg.risk_management.max_bet_percentage / 100)
  else max x cfg.betting.min_bet_amount

/-- `computeNextBet` as the spec words it: with a loss streak the base
is `previousBet × lossMultiplier`, otherwise
`currentBalance × initialBetPercentage / 100`; the result is the base
clamped and rounded to the nearest whole currency unit. -/
def computeNextBetSpec (cfg : Config) (s : EngineState) : ℤ :=
  if s.consecutive_losses = 0 then
    pyRound (specClamp cfg s (s.current_cash * cfg.betting.initial_bet_percentage / 100))
  else
    pyRound (specClamp cfg s (s.current_bet * cfg.betting.loss_multiplier))

/-- The five stop checks of the spec, as (flag, reason) pairs in the
spec's fixed priority order. -/
def stopChecks (cfg : Config) (s : EngineState) (session_hours : ℚ) :
    List (Bool × String) :=
  [(s.stop_loss_triggered, "Stop loss triggered"),
   (s.profit_target_reached, "Profit target reached"),
   (s.max_losses_reached, "Maximum consecutive losses reached"),
   (decide (s.current_cash ≤ 0), "Insufficient funds"),
   (cfg.risk_management.enable_session_time_limit &&
      decide (cfg.risk_management.session_time_limit_hours ≤ session_hours),
    "Session time limit reached")]

/-- First applicable (condition, reason) pair, `(false, "")` when none
applies. -/
def firstApplicable : List (Bool × String) → Bool × String
  | [] => (false, "")
  | (b, r) :: rest => if b then (true, r) else firstApplicable rest

/-- `shouldStop` as the spec words it: the first applicable reason in
the fixed priority order, else `(false, "")`. -/
def shouldStopSpec (cfg : Config) (s : EngineState) (session_hours : ℚ) :
    Bool × String :=
  firstApplicable (stopChecks cfg s session_hours)

/-- The default configuration of `config_manager.get_default_config`
(betting and risk-management sections). -/
def cfgDefault : Config where
  betting :=
    { initial_bet_percentage := 1
      loss_multiplier := 5 / 2
      min_bet_amount := 1
      max_consecutive_losses := 10 }
  risk_management :=
    { enable_stop_loss := true
      stop_loss_percentage := 50
      enable_profit_target := false
      profit_target_percentage := 100
      enable_max_bet_limit := true
      max_bet_percentage := 10
      enable_session_time_limit := false
      session_time_limit_hours := 24 }

/-! ### Shared lemmas about `pyRound` -/

theorem ratFloor_le_pyRound (q : ℚ) : ratFloor q ≤ pyRound q := by
  unfold pyRound
  dsimp only
  split
  · exact le_refl _
  · split
    · exact le_of_lt (lt_add_one _)
    · split
      · exact le_refl _
      · exact le_of_lt (lt_add_one _)

theorem pyRound_ge_int (z : ℤ) (q : ℚ) (h : (z : ℚ) ≤ q) : z ≤ pyRound q := by
  have h1 : z ≤ ⌊q⌋ := Int.le_floor.mpr h
  calc z ≤ ⌊q⌋ := h1
    _ = ratFloor q := (ratFloor_eq q).symm
    _ ≤ pyRound q := ratFloor_le_pyRound q

/-! ### C1 -/

/-- C1: `calculate_bet_amount` equals the spec's `computeNextBet`: for
a positive loss streak it is `round(previousBet × lossMultiplier)`
and otherwise `round(currentBalance × initialBetPercentage / 100)`,
in both cases with the value clamped to
`[minBetAmount, currentBalance × maxBetPercentage / 100]` before
rounding, the upper clamp applying only when the max-bet limit is
enabled. -/
theorem claim_C1_calculate_bet_amount_matches_spec (cfg : Config) (s : EngineState) :
    calculate_bet_amount cfg s = computeNextBetSpec cfg s := by
  unfold calculate_bet_amount computeNextBetSpec specClamp
  by_cases h : s.consecutive_losses = 0 <;>
    simp only [h, if_true, if_false, mul_div_assoc]

/-! ### C4 -/

/-- C4: `should_stop_betting` returns the first applicable reason in
the fixed priority order stop-loss flag, profit-target flag,
max-consecutive-losses flag, non-positive balance, session time limit
(the last only when enabled), and `(false, "")` when none applies;
in particular a state with non-positive balance and all three risk
flags clear yields `(true, "Insufficient funds")`. -/
theorem claim_C4_should_stop_priority (cfg : Config) (s : EngineState) (session_hours : ℚ) :
    should_stop_betting cfg s session_hours = shouldStopSpec cfg s session_hours ∧
    (s.current_cash ≤ 0 → s.stop_loss_triggered = false →
      s.profit_target_reached = false → s.max_losses_reached = false →
      should_stop_betting cfg s session_hours = (true, "Insufficient funds")) := by
  constructor
  · unfold should_stop_betting shouldStopSpec stopChecks
    cases hsl : s.stop_loss_triggered <;>
      cases hpt : s.profit_target_reached <;>
        cases hml : s.max_losses_reached <;>
          by_cases hc : s.current_cash ≤ 0 <;>
            cases het : cfg.risk_management.enable_session_time_limit <;>
              by_cases hh : cfg.risk_management.session_time_limit_hours ≤ session_hours <;>
                simp [hsl, hpt, hml, hc, het, hh, firstApplicable]
  · intro hc h1 h2 h3
    simp [should_stop_betting, h1, h2, h3, hc]

/-- Witness for C4 at the freshly-initialised engine state (balance 0,
no flags set). -/
theorem claim_C4_witness :
    should_stop_betting cfgDefault initState 0 = (true, "Insufficient funds") :=
  (claim_C4_should_stop_priority cfgDefault initState 0).2 (le_of_eq rfl) rfl rfl rfl

/-! ### Shared step lemmas about the engine operations -/

/-- `_check_risk_conditions` never clears a risk flag. -/
theorem check_risk_conditions_flags_mono (cfg : Config) (s : EngineState) :
    (s.stop_loss_triggered = true →
      (check_risk_conditions cfg s).stop_loss_triggered = true) ∧
    (s.profit_target_reached = true →
      (check_risk_conditions cfg s).profit_target_reached = true) ∧
    (s.max_losses_reached = true →
      (check_risk_conditions cfg s).max_losses_reached = true) := by
  unfold check_risk_conditions
  simp only [apply_ite EngineState.stop_loss_triggered,
    apply_ite EngineState.profit_target_reached, apply_ite EngineState.max_losses_reached,
    apply_ite EngineState.consecutive_losses, apply_ite EngineState.starting_balance,
    apply_ite EngineState.total_profit, apply_ite EngineState.current_cash]
  split_ifs <;> simp_all

/-- `_check_risk_conditions` touches no field other than the three
risk flags. -/
theorem check_risk_conditions_frame (cfg : Config) (s : EngineState) :
    (check_risk_conditions cfg s).current_cash = s.current_cash ∧
    (check_risk_conditions cfg s).starting_balance = s.starting_balance ∧
    (check_risk_conditions cfg s).current_bet = s.current_bet ∧
    (check_risk_conditions cfg s).consecutive_losses = s.consecutive_losses ∧
    (check_risk_conditions cfg s).total_bets = s.total_bets ∧
    (check_risk_conditions cfg s).total_wins = s.total_wins ∧
    (check_risk_conditions cfg s).total_losses = s.total_losses := by
  unfold check_risk_conditions
  simp only [apply_ite EngineState.current_cash, apply_ite EngineState.starting_balance,
    apply_ite EngineState.current_bet, apply_ite EngineState.consecutive_losses,
    apply_ite EngineState.total_bets, apply_ite EngineState.total_wins,
    apply_ite EngineState.total_losses, apply_ite EngineState.total_profit]
  split_ifs <;> simp_all

/-- `check_cash` never clears a risk flag. -/
theorem check_cash_flags_mono (cfg : Config) (s : EngineState)
    (msgs : Option (List (List Char))) :
    (s.stop_loss_triggered = true →
      (check_cash cfg s msgs).2.stop_loss_triggered = true) ∧
    (s.profit_target_reached = true →
      (check_cash cfg s msgs).2.profit_target_reached = true) ∧
    (s.max_losses_reached = true →
      (check_cash cfg s msgs).2.max_losses_reached = true) := by
  cases msgs with
  | none => exact ⟨fun h => h, fun h => h, fun h => h⟩
  | some ms =>
    unfold check_cash
    rcases hx : extractBalance ms with _ | v <;> simp only [hx]
    · exact ⟨fun h => h, fun h => h, fun h => h⟩
    · split_ifs <;>
        exact ⟨fun h => (check_risk_conditions_flags_mono cfg _).1 h,
          fun h => (check_risk_conditions_flags_mono cfg _).2.1 h,
          fun h => (check_risk_conditions_flags_mono cfg _).2.2 h⟩

/-- `check_cash` leaves the bet counters untouched. -/
theorem check_cash_counters (cfg : Config) (s : EngineState)
    (msgs : Option (List (List Char))) :
    (check_cash cfg s msgs).2.total_bets = s.total_bets ∧
    (check_cash cfg s msgs).2.total_wins = s.total_wins ∧
    (check_cash cfg s msgs).2.total_losses = s.total_losses := by
  cases msgs with
  | none => exact ⟨rfl, rfl, rfl⟩
  | some ms =>
    unfold check_cash
    rcases hx : extractBalance ms with _ | v <;> simp only [hx]
    · exact ⟨trivial, trivial, trivial⟩
    · split_ifs <;>
        exact ⟨(check_risk_conditions_frame cfg _).2.2.2.2.1,
          (check_risk_conditions_frame cfg _).2.2.2.2.2.1,
          (check_risk_conditions_frame cfg _).2.2.2.2.2.2⟩

/-- `place_coinflip_bet` never touches a risk flag. -/
theorem place_coinflip_bet_flags (s : EngineState) (amount : ℚ)
    (batches : Option (List (List Char) × List (List Char) × List (List Char))) :
    (place_coinflip_bet s amount batches).2.stop_loss_triggered = s.stop_loss_triggered ∧
    (place_coinflip_bet s amount batches).2.profit_target_reached = s.profit_target_reached ∧
    (place_coinflip_bet s amount batches).2.max_losses_reached = s.max_losses_reached := by
  unfold place_coinflip_bet
  dsimp only
  generalize (match batches with
    | none => FlipResult.unknown
    | some (primary, updated, final) =>
        extract_flip_outcome (pyRound amount) primary updated final) = r
  cases r <;> exact ⟨rfl, rfl, rfl⟩

/-- The counter arithmetic of one placed bet. -/
theorem place_coinflip_bet_counters (s : EngineState) (amount : ℚ)
    (batches : Option (List (List Char) × List (List Char) × List (List Char))) :
    (place_coinflip_bet s amount batches).2.total_bets = s.total_bets + 1 ∧
    (place_coinflip_bet s amount batches).2.total_wins +
        (place_coinflip_bet s amount batches).2.total_losses =
      s.total_wins + s.total_losses +
        (if (place_coinflip_bet s amount batches).1 = .unknown then 0 else 1) := by
  unfold place_coinflip_bet
  dsimp only
  generalize (match batches with
    | none => FlipResult.unknown
    | some (primary, updated, final) =>
        extract_flip_outcome (pyRound amount) primary updated final) = r
  cases r <;> simp [apply_outcome] <;> ring

/-- A bet with an `unknown` outcome leaves wins, losses and the loss
streak untouched. -/
theorem place_coinflip_bet_unknown (s : EngineState) (amount : ℚ)
    (batches : Option (List (List Char) × List (List Char) × List (List Char)))
    (h : (place_coinflip_bet s amount batches).1 = .unknown) :
    (place_coinflip_bet s amount batches).2.total_wins = s.total_wins ∧
    (place_coinflip_bet s amount batches).2.total_losses = s.total_losses ∧
    (place_coinflip_bet s amount batches).2.consecutive_losses = s.consecutive_losses := by
  unfold place_coinflip_bet at *
  dsimp only at *
  generalize hr : (match batches with
    | none => FlipResult.unknown
    | some (primary, updated, final) =>
        extract_flip_outcome (pyRound amount) primary updated final) = r at *
  cases r <;> simp_all [apply_outcome]

/-! ### C5 -/

/-- Helper for C5: one event never clears a risk flag. -/
theorem stepEvent_flags_mono (cfg : Config) (s : EngineState) (e : Event) :
    (s.stop_loss_triggered = true → (stepEvent cfg s e).stop_loss_triggered = true) ∧
    (s.profit_target_reached = true → (stepEvent cfg s e).profit_target_reached = true) ∧
    (s.max_losses_reached = true → (stepEvent cfg s e).max_losses_reached = true) := by
  cases e with
  | cash msgs => exact check_cash_flags_mono cfg s msgs
  | bet amount batches =>
    obtain ⟨h1, h2, h3⟩ := place_coinflip_bet_flags s amount batches
    exact ⟨fun h => h1.trans h, fun h => h2.trans h, fun h => h3.trans h⟩

/-- C5: the three risk flags are one-way within a session: for every
sequence of balance-check / bet events, a flag that is true stays true
no matter how the underlying metrics move afterwards. -/
theorem claim_C5_risk_flags_sticky (cfg : Config) (s : EngineState) (es : List Event) :
    (s.stop_loss_triggered = true → (runEvents cfg s es).stop_loss_triggered = true) ∧
    (s.profit_target_reached = true → (runEvents cfg s es).profit_target_reached = true) ∧
    (s.max_losses_reached = true → (runEvents cfg s es).max_losses_reached = true) := by
  induction es generalizing s with
  | nil => exact ⟨fun h => h, fun h => h, fun h => h⟩
  | cons e es ih =>
    obtain ⟨h1, h2, h3⟩ := stepEvent_flags_mono cfg s e
    obtain ⟨g1, g2, g3⟩ := ih (stepEvent cfg s e)
    exact ⟨fun h => g1 (h1 h), fun h => g2 (h2 h), fun h => g3 (h3 h)⟩

/-- Witness for C5: a state with all three flags already set keeps
them set across a failed balance read followed by a bet. -/
theorem claim_C5_witness :
    (runEvents cfgDefault
        { initState with stop_loss_triggered := true, profit_target_reached := true,
                         max_losses_reached := true }
        [.cash none, .bet 10 none]).stop_loss_triggered = true ∧
    (runEvents cfgDefault
        { initState with stop_loss_triggered := true, profit_target_reached := true,
                         max_losses_reached := true }
        [.cash none, .bet 10 none]).profit_target_reached = true ∧
    (runEvents cfgDefault
        { initState with stop_loss_triggered := true, profit_target_reached := true,
                         max_losses_reached := true }
        [.cash none, .bet 10 none]).max_losses_reached = true := by
  obtain ⟨h1, h2, h3⟩ := claim_C5_risk_flags_sticky cfgDefault
    { initState with stop_loss_triggered := true, profit_target_reached := true,
                     max_losses_reached := true }
    [.cash none, .bet 10 none]
  exact ⟨h1 rfl, h2 rfl, h3 rfl⟩

/-! ### C6 -/

/-- Helper for C6: the counter invariant propagated over a history. -/
theorem runEvents_counter_invariant (cfg : Config) (es : List Event) (s : EngineState)
    (h : s.total_bets = s.total_wins + s.total_losses + k) :
    (runEvents cfg s es).total_bets =
      (runEvents cfg s es).total_wins + (runEvents cfg s es).total_losses +
        (k + countUnknown cfg s es) := by
  induction es generalizing s k with
  | nil => simpa [runEvents, countUnknown] using h
  | cons e es ih =>
    cases e with
    | cash msgs =>
      obtain ⟨c1, c2, c3⟩ := check_cash_counters cfg s msgs
      have hstep : (stepEvent cfg s (.cash msgs)).total_bets =
          (stepEvent cfg s (.cash msgs)).total_wins +
            (stepEvent cfg s (.cash msgs)).total_losses + k := by
        simpa [stepEvent, c1, c2, c3] using h
      simpa [runEvents, countUnknown] using ih _ hstep
    | bet amount batches =>
      obtain ⟨b1, b2⟩ := place_coinflip_bet_counters s amount batches
      by_cases hu : (place_coinflip_bet s amount batches).1 = .unknown
      · have hstep : (stepEvent cfg s (.bet amount batches)).total_bets =
            (stepEvent cfg s (.bet amount batches)).total_wins +
              (stepEvent cfg s (.bet amount batches)).total_losses + (k + 1) := by
          simp only [stepEvent, b1, h]
          simp only [hu, if_pos] at b2
          omega
        have := ih (stepEvent cfg s (.bet amount batches)) hstep
        simp only [runEvents, countUnknown, hu, if_pos] at *
        omega
      · have hstep : (stepEvent cfg s (.bet amount batches)).total_bets =
            (stepEvent cfg s (.bet amount batches)).total_wins +
              (stepEvent cfg s (.bet amount batches)).total_losses + k := by
          simp only [stepEvent, b1, h]
          simp only [hu, if_neg, not_false_iff] at b2
          omega
        have := ih (stepEvent cfg s (.bet amount batches)) hstep
        simp only [runEvents, countUnknown, hu, if_neg, not_false_iff] at *
        omega

/-- C6: each placed bet increments `total_bets` by exactly one at
placement time; an unknown outcome leaves wins, losses and the loss
streak untouched; and over any session history from the initial state,
`total_bets` equals `total_wins + total_losses +` the number of bets
whose outcome was undeterminable. -/
theorem claim_C6_bet_accounting (cfg : Config) (s : EngineState) (amount : ℚ)
    (batches : Option (List (List Char) × List (List Char) × List (List Char)))
    (es : List Event) :
    (place_coinflip_bet s amount batches).2.total_bets = s.total_bets + 1 ∧
    ((place_coinflip_bet s amount batches).1 = .unknown →
      (place_coinflip_bet s amount batches).2.total_wins = s.total_wins ∧
      (place_coinflip_bet s amount batches).2.total_losses = s.total_losses ∧
      (place_coinflip_bet s amount batches).2.consecutive_losses = s.consecutive_losses) ∧
    (runEvents cfg initState es).total_bets =
      (runEvents cfg initState es).total_wins + (runEvents cfg initState es).total_losses +
        countUnknown cfg initState es := by
  refine ⟨(place_coinflip_bet_counters s amount batches).1,
    place_coinflip_bet_unknown s amount batches, ?_⟩
  simpa using runEvents_counter_invariant cfg es initState (k := 0) rfl

/-- Witness for C6: a bet whose result batches raise an exception is
counted as attempted but not as a win or loss. -/
theorem claim_C6_witness :
    (place_coinflip_bet initState 10 none).2.total_wins = initState.total_wins ∧
    (place_coinflip_bet initState 10 none).2.total_losses = initState.total_losses ∧
    (place_coinflip_bet initState 10 none).2.consecutive_losses =
      initState.consecutive_losses :=
  (claim_C6_bet_accounting cfgDefault initState 10 none []).2.1 rfl

/-! ### C8 -/

/-- C8: balance extraction takes the first message whose text contains
"cowoncy" (case-insensitively) and parses the thousands-separated
number before the keyword with the separators stripped: on
`["You have 1,234,567 cowoncy"]` it yields `1234567`, and on a batch
in which no message contains the keyword it yields the not-found
sentinel `none`. -/
theorem claim_C8_extract_balance (msgs : List (List Char))
    (h : ∀ m ∈ msgs, containsL (lowerL m) cowoncyPat = false) :
    extractBalance ["You have 1,234,567 cowoncy".data] = some 1234567 ∧
    extractBalance msgs = none := by
  refine ⟨by decide, ?_⟩
  induction msgs with
  | nil => rfl
  | cons m rest ih =>
    have hm := h m (List.mem_cons_self m rest)
    simp only [extractBalance, hm, Bool.false_eq_true, if_false]
    exact ih fun x hx => h x (List.mem_cons_of_mem m hx)

/-- Witness for C8 on a keyword-free batch. -/
theorem claim_C8_witness :
    extractBalance ["You have 1,234,567 cowoncy".data] = some 1234567 ∧
    extractBalance ["Your quest log".data, "You hunt and find a bear".data] = none :=
  claim_C8_extract_balance ["Your quest log".data, "You hunt and find a bear".data]
    (by decide)

/-! ### C10 -/

/-- C10: when fetching the messages raises an exception, or when no
message yields a balance, `check_cash` returns the numeric sentinel 0
and leaves the whole session state unchanged. -/
theorem claim_C10_failed_cash_read_atomic (cfg : Config) (s : EngineState)
    (ms : List (List Char)) (h : extractBalance ms = none) :
    check_cash cfg s none = (0, s) ∧ check_cash cfg s (some ms) = (0, s) := by
  refine ⟨rfl, ?_⟩
  unfold check_cash
  simp [h]

/-- Witness for C10 on a batch with no balance message. -/
theorem claim_C10_witness :
    check_cash cfgDefault initState none = (0, initState) ∧
    check_cash cfgDefault initState (some ["You hunt and find a bear".data]) =
      (0, initState) :=
  claim_C10_failed_cash_read_atomic cfgDefault initState
    ["You hunt and find a bear".data] (by decide)

/-! ### C9 -/

/-- Canonical form of a successful `check_cash`: the balance is
overwritten, the starting balance is installed only from zero, the
profit is recomputed, and the risk checks run on the result. -/
theorem check_cash_some_eq (cfg : Config) (s : EngineState) (ms : List (List Char))
    (v : ℕ) (hv : extractBalance ms = some v) :
    check_cash cfg s (some ms) =
      ((v : ℚ), check_risk_conditions cfg
        { s with
          current_cash := (v : ℚ)
          starting_balance :=
            if s.starting_balance = 0 then (v : ℚ) else s.starting_balance
          total_profit := (v : ℚ) -
            (if s.starting_balance = 0 then (v : ℚ) else s.starting_balance) }) := by
  simp only [check_cash, hv]
  by_cases h : s.starting_balance = 0 <;> simp [h]

/-- Helper for C9: a successful balance read against a zero
`starting_balance` installs the read value as the starting balance. -/
theorem check_cash_sets_starting (cfg : Config) (s : EngineState)
    (ms : List (List Char)) (v : ℕ) (h0 : s.starting_balance = 0)
    (hv : extractBalance ms = some v) :
    (check_cash cfg s (some ms)).2.starting_balance = v := by
  rw [check_cash_some_eq cfg s ms v hv]
  rw [show ((v : ℚ), check_risk_conditions cfg _).2 = check_risk_conditions cfg _ from rfl,
    (check_risk_conditions_frame cfg _).2.1]
  simp [h0]

/-- Helper for C9: a balance read never changes a nonzero
`starting_balance`. -/
theorem check_cash_keeps_starting (cfg : Config) (s : EngineState)
    (msgs : Option (List (List Char))) (h : s.starting_balance ≠ 0) :
    (check_cash cfg s msgs).2.starting_balance = s.starting_balance := by
  cases msgs with
  | none => rfl
  | some ms =>
    rcases hx : extractBalance ms with _ | v
    · simp only [check_cash, hx]
    · rw [check_cash_some_eq cfg s ms v hx]
      rw [show ((v : ℚ), check_risk_conditions cfg _).2 = check_risk_conditions cfg _ from rfl,
        (check_risk_conditions_frame cfg _).2.1]
      simp [h]

/-- Helper for C9: a run of balance reads never changes a nonzero
`starting_balance`. -/
theorem runEvents_cash_keeps_starting (cfg : Config) (s : EngineState)
    (later : List (Option (List (List Char)))) (h : s.starting_balance ≠ 0) :
    (runEvents cfg s (later.map Event.cash)).starting_balance = s.starting_balance := by
  induction later generalizing s with
  | nil => rfl
  | cons b rest ih =>
    have hb := check_cash_keeps_starting cfg s b h
    have hb' : (stepEvent cfg s (Event.cash b)).starting_balance = s.starting_balance := hb
    simp only [List.map_cons, runEvents]
    rw [ih _ (by rw [hb']; exact h), hb']

/-- C9 (amended): when the first successful balance read of the
session returns a nonzero value `v`, the starting balance is set to
`v` and no later balance read (successful or failed) changes it; a
first successful read of zero does not protect the field, because the
code re-tests `starting_balance == 0`. -/
theorem claim_C9_amended_starting_balance (cfg : Config) (s : EngineState)
    (ms : List (List Char)) (v : ℕ) (later : List (Option (List (List Char))))
    (h0 : s.starting_balance = 0) (hv : extractBalance ms = some v) (hpos : 0 < v) :
    (runEvents cfg (check_cash cfg s (some ms)).2
        (later.map Event.cash)).starting_balance = v := by
  have h1 := check_cash_sets_starting cfg s ms v h0 hv
  have h2 : ((check_cash cfg s (some ms)).2).starting_balance ≠ 0 := by
    rw [h1]
    exact Nat.cast_ne_zero.mpr (Nat.pos_iff_ne_zero.mp hpos)
  rw [runEvents_cash_keeps_starting cfg _ later h2, h1]

/-- Counterexample for C9 as frozen: the first successful read returns
0, the starting balance is assigned 0, and a later read of 5 overwrites
it — so the claim's "startingBalance equals the first read value at
every later point, including v = 0" is false on the code. -/
theorem claim_C9_counterexample :
    extractBalance ["You have 0 cowoncy".data] = some 0 ∧
    (check_cash cfgDefault
        (check_cash cfgDefault initState (some ["You have 0 cowoncy".data])).2
        (some ["You have 5 cowoncy".data])).2.starting_balance = 5 ∧
    (5 : ℚ) ≠ 0 := by
  have h0 : extractBalance ["You have 0 cowoncy".data] = some 0 := by decide
  have h5 : extractBalance ["You have 5 cowoncy".data] = some 5 := by decide
  refine ⟨h0, ?_, by norm_num⟩
  have hfirst : (check_cash cfgDefault initState
      (some ["You have 0 cowoncy".data])).2.starting_balance = (0 : ℕ) :=
    check_cash_sets_starting cfgDefault initState _ 0 rfl h0
  have := check_cash_sets_starting cfgDefault
    (check_cash cfgDefault initState (some ["You have 0 cowoncy".data])).2
    ["You have 5 cowoncy".data] 5 (by exact_mod_cast hfirst) h5
  exact_mod_cast this

/-- Witness for C9 (amended): a first read of 1000 cowoncy fixes the
starting balance across a later read of 400 cowoncy and a failed
read. -/
theorem claim_C9_witness :
    (runEvents cfgDefault
        (check_cash cfgDefault initState (some ["You have 1,000 cowoncy".data])).2
        ([some ["You have 400 cowoncy".data], none].map Event.cash)).starting_balance =
      (1000 : ℕ) :=
  claim_C9_amended_starting_balance cfgDefault initState
    ["You have 1,000 cowoncy".data] 1000 [some ["You have 400 cowoncy".data], none]
    rfl (by decide) (by decide)

/-! ### C3 -/

/-- A configuration with the max-bet limit enabled and a cap below the
minimum bet: min bet 5, max bet 1% of balance. -/
def cfgC3 : Config where
  betting :=
    { initial_bet_percentage := 1
      loss_multiplier := 5 / 2
      min_bet_amount := 5
      max_consecutive_losses := 10 }
  risk_management :=
    { enable_stop_loss := false
      stop_loss_percentage := 50
      enable_profit_target := false
      profit_target_percentage := 100
      enable_max_bet_limit := true
      max_bet_percentage := 1
      enable_session_time_limit := false
      session_time_limit_hours := 24 }

/-- A fresh session holding 100 cowoncy. -/
def sC3 : EngineState := { initState with current_cash := 100 }

/-- The same configuration with the max-bet limit disabled, for the
orchestrator-cap part of the counterexample. -/
def cfgC3b : Config :=
  { cfgC3 with
    risk_management := { cfgC3.risk_management with enable_max_bet_limit := false } }

/-- A fresh session holding only 3 cowoncy. -/
def sC3b : EngineState := { initState with current_cash := 3 }

/-- Counterexample for C3 as frozen: with the max-bet limit enabled
and a cap (1% of the 100-cowoncy balance = 1) below the minimum bet
(5), `calculate_bet_amount` returns 1, strictly below the configured
minimum bet; and the orchestrator's balance cap likewise cuts a
computed bet of 5 down to a 3-cowoncy balance. -/
theorem claim_C3_counterexample :
    calculate_bet_amount cfgC3 sC3 = 1 ∧
    ¬ cfgC3.betting.min_bet_amount ≤ ((calculate_bet_amount cfgC3 sC3 : ℤ) : ℚ) ∧
    ¬ cfgC3b.betting.min_bet_amount ≤ orchestrator_capped_bet cfgC3b sC3b := by
  have h : calculate_bet_amount cfgC3 sC3 = 1 := by
    norm_num [calculate_bet_amount, pyRound, ratFloor, cfgC3, sC3, initState]
  have hb : calculate_bet_amount cfgC3b sC3b = 5 := by
    norm_num [calculate_bet_amount, pyRound, ratFloor, cfgC3b, cfgC3, sC3b, initState]
  refine ⟨h, ?_, ?_⟩
  · rw [h]
    norm_num [cfgC3]
  · unfold orchestrator_capped_bet
    rw [hb]
    norm_num [cfgC3b, cfgC3, sC3b, initState]

/-- C3 (amended): the computed bet is at least the configured minimum
bet provided the minimum bet is a whole number and, when the max-bet
limit is enabled, the cap `currentBalance × maxBetPercentage / 100` is
at least the minimum bet. -/
theorem claim_C3_amended_min_bet (cfg : Config) (s : EngineState) (z : ℤ)
    (hz : cfg.betting.min_bet_amount = (z : ℚ))
    (hcap : cfg.risk_management.enable_max_bet_limit = true →
      cfg.betting.min_bet_amount ≤
        s.current_cash * (cfg.risk_management.max_bet_percentage / 100)) :
    cfg.betting.min_bet_amount ≤ ((calculate_bet_amount cfg s : ℤ) : ℚ) := by
  unfold calculate_bet_amount
  rw [hz]
  refine Int.cast_le.mpr (pyRound_ge_int z _ ?_)
  rw [← hz]
  by_cases h : cfg.risk_management.enable_max_bet_limit = true
  · simp only [h, if_true]
    exact le_min (le_max_right _ _) (hcap h)
  · simp only [h, if_false]
    exact le_max_right _ _

/-- Witness for C3 (amended) at the default configuration (min bet 1,
cap 10% of balance) on a 1000-cowoncy balance. -/
theorem claim_C3_witness :
    cfgDefault.betting.min_bet_amount ≤
      ((calculate_bet_amount cfgDefault { initState with current_cash := 1000 } : ℤ) : ℚ) :=
  claim_C3_amended_min_bet cfgDefault { initState with current_cash := 1000 } 1
    (by simp [cfgDefault]) (fun _ => by norm_num [cfgDefault, initState])

/-! ### C2 -/

/-- The C2 scenario configuration: default betting parameters
(initial 1%, multiplier 2.5, min bet 1) with the max-bet limit
disabled so that no clamp binds. -/
def cfgC2 : Config :=
  { cfgDefault with
    risk_management := { cfgDefault.risk_management with enable_max_bet_limit := false } }

/-- A fresh session holding 1000 cowoncy. -/
def s0C2 : EngineState := { initState with current_cash := 1000 }

/-- A primary-batch message carrying the "spent" and "coin spins"
markers. -/
def spinMsg : List Char :=
  "You spent **10** cowoncy to flip a coin and the coin spins...".data

/-- A refreshed-batch loss message. -/
def lossMsg : List Char :=
  "The coin lands on tails and you lost it all...".data

/-- A refreshed-batch win message with payout 310. -/
def winMsg : List Char :=
  "The coin lands on heads and you won **310**!!".data

/-- Result batches for a lost flip. -/
def lossBatchC2 : Option (List (List Char) × List (List Char) × List (List Char)) :=
  some ([spinMsg], [lossMsg], [])

/-- Result batches for a won flip. -/
def winBatchC2 : Option (List (List Char) × List (List Char) × List (List Char)) :=
  some ([spinMsg], [winMsg], [])

/-- First computed bet of the scenario. -/
def b1C2 : ℤ := calculate_bet_amount cfgC2 s0C2

/-- State after the first loss. -/
def s1C2 : EngineState := (place_coinflip_bet s0C2 (b1C2 : ℚ) lossBatchC2).2

/-- Second computed bet. -/
def b2C2 : ℤ := calculate_bet_amount cfgC2 s1C2

/-- State after the second loss. -/
def s2C2 : EngineState := (place_coinflip_bet s1C2 (b2C2 : ℚ) lossBatchC2).2

/-- Third computed bet. -/
def b3C2 : ℤ := calculate_bet_amount cfgC2 s2C2

/-- State after the third loss. -/
def s3C2 : EngineState := (place_coinflip_bet s2C2 (b3C2 : ℚ) lossBatchC2).2

/-- Fourth computed bet. -/
def b4C2 : ℤ := calculate_bet_amount cfgC2 s3C2

/-- State after the recovery win. -/
def s4C2 : EngineState := (place_coinflip_bet s3C2 (b4C2 : ℚ) winBatchC2).2

theorem betSeq_b1 : b1C2 = 10 := by
  norm_num [b1C2, calculate_bet_amount, pyRound, ratFloor, cfgC2, cfgDefault, s0C2, initState]

theorem betSeq_s1 :
    s1C2 = { initState with
      current_cash := 1000
      current_bet := 10
      consecutive_losses := 1
      total_bets := 1
      total_losses := 1 } := by
  have hr : extract_flip_outcome 10 [spinMsg] [lossMsg] [] = .loss := by decide
  have hpy : pyRound ((10 : ℤ) : ℚ) = 10 := by norm_num [pyRound, ratFloor]
  rw [s1C2, betSeq_b1]
  simp only [place_coinflip_bet, lossBatchC2, hpy, hr, apply_outcome]
  norm_num [s0C2, initState]

theorem betSeq_b2 : b2C2 = 25 := by
  rw [b2C2, betSeq_s1]
  norm_num [calculate_bet_amount, pyRound, ratFloor, cfgC2, cfgDefault, initState]

theorem betSeq_s2 :
    s2C2 = { initState with
      current_cash := 1000
      current_bet := 25
      consecutive_losses := 2
      total_bets := 2
      total_losses := 2 } := by
  have hr : extract_flip_outcome 25 [spinMsg] [lossMsg] [] = .loss := by decide
  have hpy : pyRound ((25 : ℤ) : ℚ) = 25 := by norm_num [pyRound, ratFloor]
  rw [s2C2, betSeq_b2, betSeq_s1]
  simp only [place_coinflip_bet, lossBatchC2, hpy, hr, apply_outcome]
  norm_num [initState]

theorem betSeq_b3 : b3C2 = 62 := by
  rw [b3C2, betSeq_s2]
  norm_num [calculate_bet_amount, pyRound, ratFloor, cfgC2, cfgDefault, initState]

theorem betSeq_s3 :
    s3C2 = { initState with
      current_cash := 1000
      current_bet := 62
      consecutive_losses := 3
      total_bets := 3
      total_losses := 3 } := by
  have hr : extract_flip_outcome 62 [spinMsg] [lossMsg] [] = .loss := by decide
  have hpy : pyRound ((62 : ℤ) : ℚ) = 62 := by norm_num [pyRound, ratFloor]
  rw [s3C2, betSeq_b3, betSeq_s2]
  simp only [place_coinflip_bet, lossBatchC2, hpy, hr, apply_outcome]
  norm_num [initState]

theorem betSeq_b4 : b4C2 = 155 := by
  rw [b4C2, betSeq_s3]
  norm_num [calculate_bet_amount, pyRound, ratFloor, cfgC2, cfgDefault, initState]

theorem betSeq_s4 :
    s4C2 = { initState with
      current_cash := 1000
      current_bet := 155
      consecutive_losses := 0
      total_bets := 4
      total_losses := 3
      total_wins := 1 } := by
  have hr : extract_flip_outcome 155 [spinMsg] [winMsg] [] = .win 310 := by decide
  have hpy : pyRound ((155 : ℤ) : ℚ) = 155 := by norm_num [pyRound, ratFloor]
  rw [s4C2, betSeq_b4, betSeq_s3]
  simp only [place_coinflip_bet, winBatchC2, hpy, hr, apply_outcome]
  norm_num [initState]

/-- Counterexample for C2 as frozen: in the spec's scenario the third
bet is 62, not 63 — Python's `round` is round-half-to-even, so
`round(62.5) = 62`. -/
theorem claim_C2_counterexample :
    b1C2 = 10 ∧ b2C2 = 25 ∧ b3C2 = 62 ∧ (62 : ℤ) ≠ 63 :=
  ⟨betSeq_b1, betSeq_b2, betSeq_b3, by decide⟩

/-- C2 (amended): with starting balance 1000, initial bet 1 %, loss
multiplier 2.5 and no clamp binding, the bets over three losses and a
win are 10, 25, 62, 155 (62.5 rounds down to 62 under Python's
round-half-to-even, making the next base 62 and the fourth bet 155);
after the win the loss streak is 0, so the next bet is again
`round(1 % of the then-current balance)` for any refreshed balance of
at least 100. -/
theorem claim_C2_amended_bet_sequence :
    b1C2 = 10 ∧ b2C2 = 25 ∧ b3C2 = 62 ∧ b4C2 = 155 ∧
    s4C2.consecutive_losses = 0 ∧
    ∀ B : ℕ, 100 ≤ B →
      calculate_bet_amount cfgC2 { s4C2 with current_cash := (B : ℚ) } =
        pyRound ((B : ℚ) * (1 / 100)) := by
  refine ⟨betSeq_b1, betSeq_b2, betSeq_b3, betSeq_b4, by rw [betSeq_s4], ?_⟩
  intro B hB
  rw [betSeq_s4]
  unfold calculate_bet_amount
  have h0 : ({ initState with
      current_bet := 155
      consecutive_losses := 0
      total_bets := 4
      total_losses := 3
      total_wins := 1
      current_cash := (B : ℚ) } : EngineState).consecutive_losses = 0 := rfl
  simp only [h0, if_true, cfgC2, cfgDefault]
  norm_num
  rw [max_eq_left]
  have : (100 : ℚ) ≤ (B : ℚ) := by exact_mod_cast hB
  linarith

/-- Witness for C2 (amended) at a refreshed balance of 1090. -/
theorem claim_C2_witness :
    calculate_bet_amount cfgC2 { s4C2 with current_cash := ((1090 : ℕ) : ℚ) } =
      pyRound (((1090 : ℕ) : ℚ) * (1 / 100)) :=
  claim_C2_amended_bet_sequence.2.2.2.2.2 1090 (by decide)

/-! ### C7 -/

/-- A refreshed-batch win message with an extractable payout of 200. -/
def winMsg200 : List Char :=
  "The coin lands on heads and You won **200**!!".data

/-- A refreshed-batch win message whose payout number cannot be
extracted (no "!!" terminator after the number). -/
def winMsgNoCapture : List Char :=
  "after the flip you won 300 cowoncy eventually".data

/-- A refreshed-batch loss message that also contains an unrelated
number. -/
def lossMsgWithNumber : List Char :=
  "The coin lands on tails and you lost it all! (-250)".data

/-- An unrelated chat message. -/
def unrelatedMsg : List Char :=
  "the weather is nice today".data

/-- C7: with an expected bet of 100, a refreshed batch containing
"You won **200**!!" (after a primary batch with the spend/spin phrase)
classifies as a win with extracted amount 200; a win marker without an
extractable payout defaults to 2 x 100 = 200; "lost it all" classifies
as a loss regardless of the numbers in the message; unrelated text
classifies as unknown. -/
theorem claim_C7_outcome_interpretation :
    extract_flip_outcome 100 [spinMsg] [winMsg200] [] = .win 200 ∧
    extract_flip_outcome 100 [spinMsg] [winMsgNoCapture] [] = .win (100 * 2) ∧
    extract_flip_outcome 100 [spinMsg] [lossMsgWithNumber] [] = .loss ∧
    extract_flip_outcome 100 [unrelatedMsg] [unrelatedMsg] [unrelatedMsg] = .unknown := by
  refine ⟨by decide, by decide, by decide, by decide⟩

end OwoBot
